import Mathlib

/-!
Verification of the dynamic-data-source loading core
(`store/postgres/src/dynds.rs`): the row validator `to_source` and the
loader `load`, which reconstructs the ordered list of dynamic data
sources of one deployment and enforces the creation-point ordering
invariant.

Machine integers are modelled as `Nat`/`Int` with explicit reduction
modulo `2 ^ 64` where the code casts; arbitrary-precision decimals
(`Numeric` columns) are modelled as `ℚ`; fallible code returns `Except`.
-/

/-- Bound of a stored half-open block range, modelling `std::ops::Bound<i32>`
(the payload is an `i32` column value, modelled as `Int`). -/
inductive Bnd where
  | included (n : Int)
  | excluded (n : Int)
  | unbounded
deriving DecidableEq

/-- Store error type. The embedding distinguishes the two kinds the code
produces on this path: `StoreError::ConstraintViolation` (from the
`constraint_violation!` macro and the ordering check) and errors
propagated from the underlying query execution by `?`. -/
inductive StoreError where
  | ConstraintViolation (msg : String)
  | QueryFailure (msg : String)
deriving DecidableEq

/-- Validated source of a dynamic data source (`Source` from
`graph::data::subgraph`): the `H160` address is kept as its raw 20 bytes,
the `u64` start block is modelled as `Nat`. -/
structure Source where
  address : Option (List Nat)
  abi : String
  start_block : Nat
deriving DecidableEq

/-- Assembled entry (`StoredDynamicDataSource` from
`graph::components::store`): name, validated source, opaque context blob,
optional creation block (`Option<u64>` modelled as `Option Nat`). -/
structure StoredDynamicDataSource where
  name : String
  source : Source
  context : Option String
  creation_block : Option Nat
deriving DecidableEq

/-- One joined row as delivered by the query in `load`: the projected
columns `(decds::id, decds::name, decds::context, (ecs::address, ecs::abi,
ecs::start_block), decds::block_range)`, together with the two columns the
query orders by, `decds::ethereum_block_number` (a `Numeric`, modelled as
`ℚ`) and `decds::vid` (a `BigInt`). `ecs::start_block` is a `Numeric`
modelled as `ℚ`; `ecs::address` is `Nullable<Binary>`. -/
structure Row where
  vid : Int
  ethereum_block_number : ℚ
  id : String
  name : String
  context : Option String
  source : Option (List Nat) × String × Option ℚ
  block_range : Bnd × Bnd

/-- Modelled from the spec: the range-decoder collaborator
`first_block_in_range` from `crate::block_range` (not among the given
sources) returns the inclusive lower bound of a half-open integer
interval if bounded, or an absent value if unbounded. -/
def first_block_in_range : Bnd × Bnd → Option Int
  | (Bnd.included n, _) => some n
  | (Bnd.excluded n, _) => some (n + 1)
  | (Bnd.unbounded, _) => none

/-- Modelled from the spec: the numeric-conversion collaborator
(`bigdecimal::ToPrimitive::to_u64`, an external crate utility) converts
an arbitrary-precision decimal to an unsigned 64-bit integer, failing if
the value is not exactly representable. -/
def to_u64 (s : ℚ) : Option Nat :=
  if s.den = 1 ∧ 0 ≤ s.num ∧ s.num < 2 ^ 64 then some s.num.toNat else none

/-- Textual rendering of a decimal for error messages (the code uses the
decimal's Debug formatting; only the presence of the value in the message
matters for the claims). -/
def decToString (s : ℚ) : String := toString s.num ++ "/" ++ toString s.den

/-- Textual rendering of raw address bytes for error messages. -/
def bytesToString (l : List Nat) : String := toString l

/-- Row validator `to_source`: turns one row's source fields into a
validated `Source` or fails, mirroring `dynds.rs`: a missing address is a
constraint violation; a present address must be exactly 20 bytes; a
missing start block defaults to 0; a present start block must convert to
`u64`. -/
def to_source (deployment : String) (ds_id : String) :
    Option (List Nat) × String × Option ℚ → Except StoreError Source
  | (none, _abi, _start_block) =>
      Except.error (StoreError.ConstraintViolation
        ("Dynamic data source " ++ ds_id ++ " for deployment " ++ deployment ++
          " is missing an address"))
  | (some address, abi, start_block) =>
      if address.length ≠ 20 then
        Except.error (StoreError.ConstraintViolation
          ("Data source address 0x" ++ bytesToString address ++
            " for dynamic data source " ++ ds_id ++ " in deployment " ++
            deployment ++ " should have be 20 bytes long but is " ++
            toString address.length ++ " bytes long"))
      else
        match start_block with
        | none =>
            Except.ok { address := some address, abi := abi, start_block := 0 }
        | some s =>
            match to_u64 s with
            | some n =>
                Except.ok { address := some address, abi := abi, start_block := n }
            | none =>
                Except.error (StoreError.ConstraintViolation
                  ("Start block " ++ decToString s ++ " for dynamic data source " ++
                    ds_id ++ " in deployment " ++ deployment ++ " is not a u64"))

/-- Rust cast `n as u64` applied to the `i32` lower bound
(`creation_block.map(|n| n as u64)` in `load`): sign extension, i.e.
reduction modulo `2 ^ 64`. -/
def castI32ToU64 (n : Int) : Nat := (n % 2 ^ 64).toNat

/-- Creation point of one row as computed in the loop of `load`:
`first_block_in_range(&range).map(|n| n as u64)`. -/
def rowCreation (r : Row) : Option Nat :=
  (first_block_in_range r.block_range).map castI32ToU64

/-- Ordering on `Option<u64>` used by the running check
`data_sources.last().and_then(|d| d.creation_block) <= data_source.creation_block`:
the derived Rust ordering, where `None` is below every `Some`. -/
def optLe : Option Nat → Option Nat → Bool
  | none, _ => true
  | some _, none => false
  | some a, some b => a ≤ b

/-- Strict counterpart of `optLe` (the derived Rust `<` on `Option<u64>`). -/
def optLt : Option Nat → Option Nat → Bool
  | none, none => false
  | none, some _ => true
  | some _, none => false
  | some a, some b => a < b

/-- Propositional form of `optLe`, for chain and pairwise statements. -/
def optLeR (a b : Option Nat) : Prop := optLe a b = true

instance : DecidableRel optLeR := fun a b => by
  unfold optLeR; infer_instance

/-- Loop body of `load`: validate each row, assemble a
`StoredDynamicDataSource`, and enforce the running ordering check.
`prev` carries `data_sources.last().and_then(|d| d.creation_block)`,
which is `none` both for the empty accumulator and when the last pushed
entry has no creation block, exactly as `and_then` flattens them. -/
def loadLoop (dep : String) (prev : Option Nat) :
    List Row → Except StoreError (List StoredDynamicDataSource)
  | [] => Except.ok []
  | r :: rs =>
    match to_source dep r.id r.source with
    | Except.error e => Except.error e
    | Except.ok src =>
      let cb := rowCreation r
      if optLe prev cb then
        match loadLoop dep cb rs with
        | Except.error e => Except.error e
        | Except.ok l =>
            Except.ok ({ name := r.name, source := src, context := r.context,
                         creation_block := cb } :: l)
      else
        Except.error (StoreError.ConstraintViolation
          "data sources not ordered by creation block")

/-- Processing of the query result by `load` (lines 132 to 151 of
`dynds.rs`): the loop starting from an empty accumulator. -/
def loadRows (dep : String) (rows : List Row) :
    Except StoreError (List StoredDynamicDataSource) :=
  loadLoop dep none rows

/-- Top-level `load`. The query execution is an external collaborator;
its outcome, either a failure or the row list (filtered to the deployment
and ordered by `(ethereum_block_number, vid)` by the database), is passed
in. A query failure is propagated by `?` as a store error that is not a
constraint violation. -/
def load (queryResult : Except String (List Row)) (dep : String) :
    Except StoreError (List StoredDynamicDataSource) :=
  match queryResult with
  | Except.error e => Except.error (StoreError.QueryFailure e)
  | Except.ok rows => loadRows dep rows

/-- Strict lexicographic order on rows by `(ethereum_block_number, vid)`,
the `order_by` of the query. `vid` is the table's primary key, so two
distinct rows never tie on both columns and consecutive query results are
strictly increasing. -/
def rowLexLt (a b : Row) : Prop :=
  a.ethereum_block_number < b.ethereum_block_number ∨
    (a.ethereum_block_number = b.ethereum_block_number ∧ a.vid < b.vid)

instance : DecidableRel rowLexLt := fun a b => by
  unfold rowLexLt; infer_instance

/-- Shape of a row list as delivered by the query of `load`: sorted
strictly by `(ethereum_block_number, vid)`. -/
def QuerySorted (rows : List Row) : Prop := List.Pairwise rowLexLt rows

instance (rows : List Row) : Decidable (QuerySorted rows) := by
  unfold QuerySorted; infer_instance

/-- Occurrence of `sub` as a contiguous substring of `s`. -/
def ContainsStr (s sub : String) : Prop := ∃ a b, s = a ++ sub ++ b

deriving instance DecidableEq for Except

/-! Helper lemmas shared by several of the theorems below. -/

theorem optLeR_trans_aux (a b c : Option Nat) (hab : optLeR a b) (hbc : optLeR b c) :
    optLeR a c := by
  cases a <;> cases b <;> cases c <;>
    first
      | (simp_all [optLeR, optLe]; omega)
      | simp_all [optLeR, optLe]

instance : IsTrans (Option Nat) optLeR := ⟨optLeR_trans_aux⟩

theorem optLt_iff_not_le (a b : Option Nat) : optLt a b = true ↔ ¬ optLeR b a := by
  cases a <;> cases b <;> simp [optLt, optLe, optLeR]

theorem to_source_error_cv (dep dsid : String)
    (t : Option (List Nat) × String × Option ℚ) (e : StoreError)
    (h : to_source dep dsid t = Except.error e) :
    ∃ msg, e = StoreError.ConstraintViolation msg := by
  obtain ⟨addr, abi, sb⟩ := t
  cases addr with
  | none =>
      simp only [to_source] at h
      injection h with h
      exact ⟨_, h.symm⟩
  | some a =>
      simp only [to_source] at h
      by_cases hlen : a.length ≠ 20
      · rw [if_pos hlen] at h
        injection h with h
        exact ⟨_, h.symm⟩
      · rw [if_neg hlen] at h
        cases sb with
        | none => cases h
        | some s =>
            dsimp only at h
            cases hu : to_u64 s with
            | some n => rw [hu] at h; cases h
            | none =>
                rw [hu] at h
                injection h with h
                exact ⟨_, h.symm⟩

theorem loadLoop_ok_spec (dep : String) (rows : List Row) :
    ∀ (prev : Option Nat) (l : List StoredDynamicDataSource),
      loadLoop dep prev rows = Except.ok l →
      l.map StoredDynamicDataSource.creation_block = rows.map rowCreation ∧
      List.Chain optLeR prev (rows.map rowCreation) := by
  induction rows with
  | nil =>
      intro prev l h
      simp only [loadLoop] at h
      injection h with h
      subst h
      exact ⟨rfl, List.Chain.nil⟩
  | cons r rs ih =>
      intro prev l h
      simp only [loadLoop] at h
      cases hts : to_source dep r.id r.source with
      | error e => rw [hts] at h; cases h
      | ok src =>
          rw [hts] at h
          dsimp only at h
          by_cases hle : optLe prev (rowCreation r) = true
          · rw [if_pos hle] at h
            cases hrec : loadLoop dep (rowCreation r) rs with
            | error e => rw [hrec] at h; cases h
            | ok l' =>
                rw [hrec] at h
                dsimp only at h
                injection h with h
                subst h
                obtain ⟨hmap, hchain⟩ := ih (rowCreation r) l' hrec
                constructor
                · simp only [List.map_cons, hmap]
                · exact List.Chain.cons hle hchain
          · rw [if_neg hle] at h
            cases h

theorem loadLoop_error_cv (dep : String) (rows : List Row) :
    ∀ (prev : Option Nat) (e : StoreError),
      loadLoop dep prev rows = Except.error e →
      ∃ msg, e = StoreError.ConstraintViolation msg := by
  induction rows with
  | nil => intro prev e h; simp only [loadLoop] at h; cases h
  | cons r rs ih =>
      intro prev e h
      simp only [loadLoop] at h
      cases hts : to_source dep r.id r.source with
      | error e' =>
          rw [hts] at h
          injection h with h
          subst h
          exact to_source_error_cv dep r.id r.source e' hts
      | ok src =>
          rw [hts] at h
          dsimp only at h
          by_cases hle : optLe prev (rowCreation r) = true
          · rw [if_pos hle] at h
            cases hrec : loadLoop dep (rowCreation r) rs with
            | error e' =>
                rw [hrec] at h
                dsimp only at h
                injection h with h
                subst h
                exact ih _ _ hrec
            | ok l' => rw [hrec] at h; cases h
          · rw [if_neg hle] at h
            injection h with h
            exact ⟨_, h.symm⟩

theorem loadRows_consecutive_le (dep : String) (rows : List Row)
    (l : List StoredDynamicDataSource) (h : loadRows dep rows = Except.ok l)
    (i : Nat) (hi : i + 1 < rows.length) :
    optLeR (rowCreation (rows.get ⟨i, Nat.lt_of_succ_lt hi⟩))
      (rowCreation (rows.get ⟨i + 1, hi⟩)) := by
  obtain ⟨hmap, hchain⟩ := loadLoop_ok_spec dep rows none l h
  have hcons := (List.chain_iff_get.mp hchain).2
  have hlen : (rows.map rowCreation).length = rows.length := List.length_map _ _
  have hi' : i < (rows.map rowCreation).length - 1 := by omega
  have := hcons i hi'
  simpa using this

theorem loadRows_violation (dep : String) (rows : List Row) (i : Nat)
    (hi : i + 1 < rows.length)
    (hv : ¬ optLeR (rowCreation (rows.get ⟨i, Nat.lt_of_succ_lt hi⟩))
        (rowCreation (rows.get ⟨i + 1, hi⟩))) :
    ∃ msg, loadRows dep rows = Except.error (StoreError.ConstraintViolation msg) := by
  cases hres : loadRows dep rows with
  | error e =>
      obtain ⟨msg, rfl⟩ := loadLoop_error_cv dep rows none e hres
      exact ⟨msg, rfl⟩
  | ok l => exact absurd (loadRows_consecutive_le dep rows l hres i hi) hv

/-! Concrete fixtures used by counterexamples and witnesses. -/

/-- Twenty bytes 0x11. -/
def addrA : List Nat := List.replicate 20 17

/-- Twenty bytes 0x22. -/
def addrB : List Nat := List.replicate 20 34

/-- Nineteen bytes 0x01. -/
def addr19 : List Nat := List.replicate 19 1

/-- Twenty zero bytes. -/
def addr20z : List Nat := List.replicate 20 0

/-- Row whose stored creation-block-number column (5) is smaller than its
block-range lower bound (100), with the larger `vid`. -/
def cexRowA : Row :=
  { vid := 10, ethereum_block_number := 5, id := "ds-1", name := "ds-one",
    context := none, source := (some addrA, "ERC20", none),
    block_range := (Bnd.included 100, Bnd.unbounded) }

/-- Row with stored creation-block-number column 6, block-range lower
bound 100 and the smaller `vid`. -/
def cexRowB : Row :=
  { vid := 3, ethereum_block_number := 6, id := "ds-2", name := "ds-two",
    context := none, source := (some addrB, "ERC721", none),
    block_range := (Bnd.included 100, Bnd.unbounded) }

/-- Result of loading `[cexRowA, cexRowB]`. -/
def cexResult : List StoredDynamicDataSource :=
  [ { name := "ds-one",
      source := { address := some addrA, abi := "ERC20", start_block := 0 },
      context := none, creation_block := some 100 },
    { name := "ds-two",
      source := { address := some addrB, abi := "ERC721", start_block := 0 },
      context := none, creation_block := some 100 } ]

/-- Row with creation point 5. -/
def w5Row : Row :=
  { vid := 1, ethereum_block_number := 5, id := "ds-5", name := "five",
    context := none, source := (some addrA, "ERC20", none),
    block_range := (Bnd.included 5, Bnd.unbounded) }

/-- Row with creation point 3. -/
def w3Row : Row :=
  { vid := 2, ethereum_block_number := 3, id := "ds-3", name := "three",
    context := none, source := (some addrB, "ERC20", none),
    block_range := (Bnd.included 3, Bnd.unbounded) }

/-- Row with creation point 7. -/
def w7Row : Row :=
  { vid := 1, ethereum_block_number := 7, id := "ds-7", name := "seven",
    context := none, source := (some addrA, "ERC20", none),
    block_range := (Bnd.included 7, Bnd.unbounded) }

/-- Row with an unbounded block-range lower bound (absent creation point). -/
def wUnbRow : Row :=
  { vid := 2, ethereum_block_number := 8, id := "ds-8", name := "eight",
    context := none, source := (some addrB, "ERC20", none),
    block_range := (Bnd.unbounded, Bnd.unbounded) }

/-- Row whose block-range lower bound is the negative value -5. -/
def negRow : Row :=
  { vid := 1, ethereum_block_number := 0, id := "ds-neg", name := "neg",
    context := none, source := (some addrA, "ERC20", none),
    block_range := (Bnd.included (-5), Bnd.unbounded) }

/-- Entry assembled from `negRow`: the creation block is the wrapped cast
of -5, namely 2 ^ 64 - 5. -/
def negDS : StoredDynamicDataSource :=
  { name := "neg",
    source := { address := some addrA, abi := "ERC20", start_block := 0 },
    context := none, creation_block := some 18446744073709551611 }

/-! Claim theorems. -/

/-- C1 counterexample: a successful `load` call on query results sorted by
`(ethereum_block_number, vid)` whose two returned entries share the same
creation point (100, from the block-range lower bounds) while their rows'
`vid` values are in descending order (10 then 3): the returned list is not
ordered by insertion sequence within this equal creation point, because
the query orders by the stored `ethereum_block_number` column (5 then 6
here), not by the creation point derived from the block range. -/
theorem load_equal_creation_vid_cex :
    QuerySorted [cexRowA, cexRowB] ∧
    load (Except.ok [cexRowA, cexRowB]) "dep1" = Except.ok cexResult ∧
    rowCreation cexRowA = rowCreation cexRowB ∧
    cexRowB.vid < cexRowA.vid :=
  ⟨by decide, by decide, by decide, by decide⟩

/-- C1 (amended): for every successful `load` call on query results sorted
strictly by `(ethereum_block_number, vid)`, the returned list is
non-decreasing in creation point, and entries whose rows share an equal
stored `ethereum_block_number` column value appear in ascending `vid`
order. -/
theorem load_ok_creation_nondecreasing (dep : String) (rows : List Row)
    (l : List StoredDynamicDataSource) (hs : QuerySorted rows)
    (h : load (Except.ok rows) dep = Except.ok l) :
    List.Pairwise (fun a b => optLeR a.creation_block b.creation_block) l ∧
    ∀ (i j : Fin rows.length), (i : Nat) < (j : Nat) →
      (rows.get i).ethereum_block_number = (rows.get j).ethereum_block_number →
      (rows.get i).vid < (rows.get j).vid := by
  obtain ⟨hmap, hchain⟩ := loadLoop_ok_spec dep rows none l h
  constructor
  · have hp : List.Pairwise optLeR (none :: rows.map rowCreation) :=
      List.chain_iff_pairwise.mp hchain
    have hp2 : List.Pairwise optLeR (rows.map rowCreation) :=
      (List.pairwise_cons.mp hp).2
    rw [← hmap] at hp2
    exact List.pairwise_map.mp hp2
  · intro i j hij heq
    have hlex := List.pairwise_iff_get.mp hs i j hij
    rcases hlex with hlt | ⟨_, hvid⟩
    · exact absurd heq (ne_of_lt hlt)
    · exact hvid

/-- Witness for C1: the amended theorem applied to the two-row fixture. -/
theorem load_ok_creation_nondecreasing_witness :
    List.Pairwise (fun a b => optLeR a.creation_block b.creation_block) cexResult :=
  (load_ok_creation_nondecreasing "dep1" [cexRowA, cexRowB] cexResult
    (by decide) (by decide)).1

/-- C2: whenever some row's creation point is strictly less than the
previous row's creation point (under the ordering in which an absent
creation point is the minimum), `load` fails with a
`ConstraintViolation` and returns no data sources at all. -/
theorem load_ordering_violation_fails (dep : String) (rows : List Row)
    (i : Nat) (hi : i + 1 < rows.length)
    (hv : optLt (rowCreation (rows.get ⟨i + 1, hi⟩))
        (rowCreation (rows.get ⟨i, Nat.lt_of_succ_lt hi⟩)) = true) :
    (∃ msg, load (Except.ok rows) dep =
      Except.error (StoreError.ConstraintViolation msg)) ∧
    ∀ l, load (Except.ok rows) dep ≠ Except.ok l := by
  have hv' := (optLt_iff_not_le _ _).mp hv
  obtain ⟨msg, hmsg⟩ := loadRows_violation dep rows i hi hv'
  have hmsg' : load (Except.ok rows) dep =
      Except.error (StoreError.ConstraintViolation msg) := hmsg
  refine ⟨⟨msg, hmsg'⟩, ?_⟩
  intro l hl
  rw [hmsg'] at hl
  cases hl

/-- Witness for C2: two rows with creation points 5 then 3. -/
theorem load_ordering_violation_fails_witness :
    ∃ msg, load (Except.ok [w5Row, w3Row]) "dep1" =
      Except.error (StoreError.ConstraintViolation msg) :=
  (load_ordering_violation_fails "dep1" [w5Row, w3Row] 0 (by decide)
    (by decide)).1

/-- C3: for a row with an absent address, `to_source` fails with a
`ConstraintViolation` whose message contains the data-source id and the
deployment; and `to_source` never returns a `Source` whose address is
absent. -/
theorem to_source_missing_address (deployment ds_id abi : String)
    (sb : Option ℚ) :
    (∃ msg, to_source deployment ds_id (none, abi, sb) =
        Except.error (StoreError.ConstraintViolation msg) ∧
      ContainsStr msg ds_id ∧ ContainsStr msg deployment) ∧
    ∀ (t : Option (List Nat) × String × Option ℚ) (src : Source),
      to_source deployment ds_id t = Except.ok src → src.address ≠ none := by
  constructor
  · refine ⟨_, rfl, ?_, ?_⟩
    · exact ⟨"Dynamic data source ",
        " for deployment " ++ deployment ++ " is missing an address",
        by simp [String.append_assoc]⟩
    · exact ⟨"Dynamic data source " ++ ds_id ++ " for deployment ",
        " is missing an address", by simp [String.append_assoc]⟩
  · intro t src h
    obtain ⟨addr, abi', sb'⟩ := t
    cases addr with
    | none => simp only [to_source] at h; cases h
    | some a =>
        simp only [to_source] at h
        by_cases hlen : a.length ≠ 20
        · rw [if_pos hlen] at h; cases h
        · rw [if_neg hlen] at h
          cases sb' with
          | none =>
              dsimp only at h
              injection h with h
              subst h
              simp
          | some s =>
              dsimp only at h
              cases hu : to_u64 s with
              | some n =>
                  rw [hu] at h
                  injection h with h
                  subst h
                  simp
              | none => rw [hu] at h; cases h

/-- Witness for C3: the never-an-absent-address part of the theorem
applied to a concrete successful validation. -/
theorem to_source_missing_address_witness :
    ({ address := some addrA, abi := "ERC20", start_block := 0 } :
      Source).address ≠ none :=
  (to_source_missing_address "dep1" "ds-1" "ERC20" none).2
    (some addrA, "ERC20", none)
    { address := some addrA, abi := "ERC20", start_block := 0 } (by decide)

/-- C4 counterexample: a present 20-byte address for which `to_source`
does not succeed, because the start block -1 is not representable as an
unsigned 64-bit integer. -/
theorem to_source_twenty_bytes_not_sufficient :
    addr20z.length = 20 ∧
    (to_source "dep1" "ds-1" (some addr20z, "ERC20", some (-1 : ℚ))).isOk
      = false :=
  ⟨by decide, by decide⟩

/-- C4 (amended): for a present address of byte length other than 20,
`to_source` fails with a `ConstraintViolation` whose message contains the
observed length; for a present 20-byte address, provided the start block
is absent or losslessly convertible to an unsigned 64-bit integer,
`to_source` succeeds with a `Source` whose address equals the input
bytes. -/
theorem to_source_address_length_check (deployment ds_id abi : String)
    (sb : Option ℚ) (addr : List Nat) :
    (addr.length ≠ 20 →
      ∃ msg, to_source deployment ds_id (some addr, abi, sb) =
          Except.error (StoreError.ConstraintViolation msg) ∧
        ContainsStr msg (toString addr.length)) ∧
    (addr.length = 20 →
      (sb = none ∨ ∃ q n, sb = some q ∧ to_u64 q = some n) →
      ∃ src, to_source deployment ds_id (some addr, abi, sb) = Except.ok src ∧
        src.address = some addr) := by
  constructor
  · intro hlen
    refine ⟨"Data source address 0x" ++ bytesToString addr ++
        " for dynamic data source " ++ ds_id ++ " in deployment " ++
        deployment ++ " should have be 20 bytes long but is " ++
        toString addr.length ++ " bytes long", ?_, ?_⟩
    · simp only [to_source, if_pos hlen]
    · exact ⟨"Data source address 0x" ++ bytesToString addr ++
          " for dynamic data source " ++ ds_id ++ " in deployment " ++
          deployment ++ " should have be 20 bytes long but is ",
        " bytes long", by simp [String.append_assoc]⟩
  · intro hlen hsb
    rcases hsb with rfl | ⟨q, n, rfl, hq⟩
    · exact ⟨{ address := some addr, abi := abi, start_block := 0 },
        by simp [to_source, hlen], rfl⟩
    · exact ⟨{ address := some addr, abi := abi, start_block := n },
        by simp [to_source, hlen, hq], rfl⟩

/-- Witness for C4: a 19-byte address fails with the length in the
message; a 20-byte address with absent start block succeeds with the
input bytes as address. -/
theorem to_source_address_length_check_witness :
    (∃ msg, to_source "dep1" "ds-1" (some addr19, "ERC20", none) =
        Except.error (StoreError.ConstraintViolation msg) ∧
      ContainsStr msg (toString addr19.length)) ∧
    ∃ src, to_source "dep1" "ds-2" (some addrA, "ERC20", none) =
        Except.ok src ∧ src.address = some addrA :=
  ⟨(to_source_address_length_check "dep1" "ds-1" "ERC20" none addr19).1
      (by decide),
    (to_source_address_length_check "dep1" "ds-2" "ERC20" none addrA).2
      (by decide) (Or.inl rfl)⟩

/-- C5: for a valid 20-byte address and an absent start block,
`to_source` succeeds and the resulting start block is 0. -/
theorem to_source_default_start_block (deployment ds_id abi : String)
    (addr : List Nat) (h : addr.length = 20) :
    to_source deployment ds_id (some addr, abi, none) =
      Except.ok { address := some addr, abi := abi, start_block := 0 } := by
  simp [to_source, h]

/-- Witness for C5: the default-to-zero theorem at a concrete 20-byte
address. -/
theorem to_source_default_start_block_witness :
    to_source "dep1" "ds-1" (some addrA, "ERC20", none) =
      Except.ok { address := some addrA, abi := "ERC20", start_block := 0 } :=
  to_source_default_start_block "dep1" "ds-1" "ERC20" addrA (by decide)

/-- C6: for a valid 20-byte address and a present start block, if the
decimal is losslessly convertible to an unsigned 64-bit integer then
`to_source` succeeds with exactly that value (the returned `Nat` casts
back to the original decimal); otherwise `to_source` fails with a
`ConstraintViolation` containing the offending value. -/
theorem to_source_start_block_conversion (deployment ds_id abi : String)
    (addr : List Nat) (q : ℚ) (h : addr.length = 20) :
    (∀ n, to_u64 q = some n →
      to_source deployment ds_id (some addr, abi, some q) =
        Except.ok { address := some addr, abi := abi, start_block := n } ∧
      (n : ℚ) = q) ∧
    (to_u64 q = none →
      ∃ msg, to_source deployment ds_id (some addr, abi, some q) =
          Except.error (StoreError.ConstraintViolation msg) ∧
        ContainsStr msg (decToString q)) := by
  constructor
  · intro n hn
    constructor
    · simp [to_source, h, hn]
    · unfold to_u64 at hn
      by_cases hc : q.den = 1 ∧ 0 ≤ q.num ∧ q.num < 2 ^ 64
      · rw [if_pos hc] at hn
        injection hn with hn
        subst hn
        obtain ⟨hden, hnum, _⟩ := hc
        have h1 : ((q.num.toNat : ℤ)) = q.num := Int.toNat_of_nonneg hnum
        have h2 : ((q.num.toNat : ℚ)) = ((q.num : ℚ)) := by
          exact_mod_cast congrArg (fun z : ℤ => (z : ℚ)) h1
        rw [h2]
        conv_rhs => rw [← Rat.num_div_den q]
        rw [hden]
        norm_num
      · rw [if_neg hc] at hn
        cases hn
  · intro hq
    refine ⟨"Start block " ++ decToString q ++ " for dynamic data source " ++
        ds_id ++ " in deployment " ++ deployment ++ " is not a u64", ?_, ?_⟩
    · simp [to_source, h, hq]
    · exact ⟨"Start block ", " for dynamic data source " ++ ds_id ++
        " in deployment " ++ deployment ++ " is not a u64",
        by simp [String.append_assoc]⟩

/-- Witness for C6: start block 5 is preserved exactly; start block -1
fails with the value in the message. -/
theorem to_source_start_block_conversion_witness :
    (to_source "dep1" "ds-1" (some addrA, "ERC20", some (5 : ℚ)) =
        Except.ok { address := some addrA, abi := "ERC20", start_block := 5 } ∧
      ((5 : Nat) : ℚ) = (5 : ℚ)) ∧
    ∃ msg, to_source "dep1" "ds-2" (some addrB, "ERC20", some (-1 : ℚ)) =
        Except.error (StoreError.ConstraintViolation msg) ∧
      ContainsStr msg (decToString (-1 : ℚ)) :=
  ⟨(to_source_start_block_conversion "dep1" "ds-1" "ERC20" addrA 5
      (by decide)).1 5 (by decide),
    (to_source_start_block_conversion "dep1" "ds-2" "ERC20" addrB (-1)
      (by decide)).2 (by decide)⟩

/-- C7: a failure of the underlying query execution is propagated by
`load` with its content unchanged, and is never a `ConstraintViolation`. -/
theorem load_query_error_propagated (e : String) (dep : String) :
    load (Except.error e) dep = Except.error (StoreError.QueryFailure e) ∧
    ∀ msg, load (Except.error e) dep ≠
      Except.error (StoreError.ConstraintViolation msg) := by
  constructor
  · rfl
  · intro msg h
    injection h with h
    cases h

/-- Witness for C7: a concrete query failure comes back verbatim. -/
theorem load_query_error_propagated_witness :
    load (Except.error "connection refused") "dep1" =
      Except.error (StoreError.QueryFailure "connection refused") :=
  (load_query_error_propagated "connection refused" "dep1").1

/-- C8: when the query returns zero rows, `load` succeeds with the empty
list; and the ordering check always accepts the first accumulated row,
since the empty accumulator compares as the minimum. -/
theorem load_empty_query (dep : String) :
    load (Except.ok []) dep = Except.ok [] ∧
    ∀ r : Row, optLe none (rowCreation r) = true :=
  ⟨rfl, fun _ => rfl⟩

/-- C9: a row with an absent creation point (unbounded block-range lower
bound) following a row with a defined creation point makes `load` fail
with a `ConstraintViolation`. -/
theorem load_absent_after_defined_fails (dep : String) (rows : List Row)
    (i : Nat) (hi : i + 1 < rows.length) (v : Nat)
    (h1 : rowCreation (rows.get ⟨i, Nat.lt_of_succ_lt hi⟩) = some v)
    (h2 : rowCreation (rows.get ⟨i + 1, hi⟩) = none) :
    ∃ msg, load (Except.ok rows) dep =
      Except.error (StoreError.ConstraintViolation msg) := by
  have hv : ¬ optLeR (rowCreation (rows.get ⟨i, Nat.lt_of_succ_lt hi⟩))
      (rowCreation (rows.get ⟨i + 1, hi⟩)) := by
    rw [h1, h2]
    simp [optLeR, optLe]
  exact loadRows_violation dep rows i hi hv

/-- Witness for C9: a defined creation point 7 followed by an unbounded
lower bound. -/
theorem load_absent_after_defined_fails_witness :
    ∃ msg, load (Except.ok [w7Row, wUnbRow]) "dep1" =
      Except.error (StoreError.ConstraintViolation msg) :=
  load_absent_after_defined_fails "dep1" [w7Row, wUnbRow] 0 (by decide) 7
    (by decide) (by decide)

/-- C10: the creation block of each assembled entry is the block-range
lower bound cast to `u64` with wrapping (sign-extending) semantics: every
returned entry's creation block is `rowCreation` of its row, `rowCreation`
is the mapped cast of the decoded lower bound, and for a negative `i32`
lower bound `n` the cast yields `2 ^ 64 + n` rather than an error. -/
theorem load_creation_block_wrapping_cast (dep : String) (rows : List Row)
    (l : List StoredDynamicDataSource)
    (h : load (Except.ok rows) dep = Except.ok l) :
    l.map StoredDynamicDataSource.creation_block = rows.map rowCreation ∧
    (∀ r : Row, rowCreation r =
      (first_block_in_range r.block_range).map castI32ToU64) ∧
    ∀ n : Int, -(2 ^ 31) ≤ n → n < 0 → (castI32ToU64 n : Int) = 2 ^ 64 + n := by
  refine ⟨(loadLoop_ok_spec dep rows none l h).1, fun _ => rfl, ?_⟩
  intro n h1 h2
  unfold castI32ToU64
  have h64 : (2 : Int) ^ 64 = 18446744073709551616 := by norm_num
  have h31 : (2 : Int) ^ 31 = 2147483648 := by norm_num
  rw [h64]
  rw [h31] at h1
  omega

/-- Witness for C10: loading a single row with lower bound -5 succeeds
with creation block 2 ^ 64 - 5, and the cast of -5 equals 2 ^ 64 - 5. -/
theorem load_creation_block_wrapping_cast_witness :
    [negDS].map StoredDynamicDataSource.creation_block =
      [negRow].map rowCreation ∧
    (castI32ToU64 (-5) : Int) = 2 ^ 64 + (-5) :=
  ⟨(load_creation_block_wrapping_cast "dep1" [negRow] [negDS] (by decide)).1,
    (load_creation_block_wrapping_cast "dep1" [negRow] [negDS] (by decide)).2.2
      (-5) (by decide) (by decide)⟩
